import Mathlib

/-!
Verification of the twelite-serial status-frame decoder/validator and the
ogenki-daemon dispatch pipeline, shallowly embedded from the Rust sources
(src/twelite-serial/src/status_notify.rs, src/twelite-serial/src/error.rs,
src/ogenki-daemon-rs/src/main.rs, src/ogenki-daemon-rs/src/sender.rs).

Bytes are modelled as Nat (Rust u8 values are < 256; theorems that need
this state it as a hypothesis).  Fallible Rust functions become Except;
a possible runtime abort (out-of-bounds index or a forced unwrap) is
modelled by an Option layer whose none case is the abort.
-/

/-- Embeds DecodeError from src/twelite-serial/src/error.rs. -/
inductive DecodeError where
  | InvalidLength (len : Nat)
  | InvalidCharacter (c : Nat)
deriving DecidableEq

/-- Embeds ValidateError from src/twelite-serial/src/error.rs. -/
inductive ValidateError where
  | InvalidChecksum (c : Nat)
  | InvalidCommand (c : Nat)
  | InvalidProtocolVersion (c : Nat)
  | InvalidRelayCount (c : Nat)
deriving DecidableEq

/-- Embeds fn char2bin from status_notify.rs: ASCII digit ranges
b'0'..=b'9' (48..57) and b'A'..=b'F' (65..70), everything else is
InvalidCharacter. -/
def char2bin (c : Nat) : Except DecodeError Nat :=
  if 48 ≤ c ∧ c ≤ 57 then .ok (c - 48)
  else if 65 ≤ c ∧ c ≤ 70 then .ok (c - 65 + 10)
  else .error (.InvalidCharacter c)

/-- Embeds StatusNotify from status_notify.rs: the decoded 24-byte buffer
(buf: [u8; 24]).  The length and byte bounds are established by decode. -/
structure StatusNotify where
  buf : List Nat
deriving DecidableEq

/-- Models a Rust slice index `buf[n]`: the none case is the
bounds-check abort on an out-of-range index. -/
def withByte {α : Type} (x : Option Nat) (f : Nat → Option α) : Option α :=
  match x with
  | none => none
  | some c => f c

/-- Models the `?` operator applied to a char2bin call inside the
abort-tracking decoder: an error stops decoding, a value continues. -/
def withHex {α : Type} (x : Except DecodeError Nat) (f : Nat → Option (Except DecodeError α)) :
    Option (Except DecodeError α) :=
  match x with
  | .error e => some (.error e)
  | .ok v => f v

/-- Continuation through an abort-tracking fallible intermediate result:
aborts and errors propagate, a value continues. -/
def withFrame {α β : Type} (x : Option (Except DecodeError α))
    (f : α → Option (Except DecodeError β)) : Option (Except DecodeError β) :=
  match x with
  | none => none
  | some (.error e) => some (.error e)
  | some (.ok a) => f a

lemma withByte_none {α : Type} (f : Nat → Option α) : withByte none f = none := rfl

lemma withByte_some {α : Type} (c : Nat) (f : Nat → Option α) : withByte (some c) f = f c := rfl

lemma withHex_error {α : Type} (e : DecodeError) (f : Nat → Option (Except DecodeError α)) :
    withHex (.error e) f = some (.error e) := rfl

lemma withHex_ok {α : Type} (v : Nat) (f : Nat → Option (Except DecodeError α)) :
    withHex (.ok v) f = f v := rfl

lemma withFrame_none {α β : Type} (f : α → Option (Except DecodeError β)) :
    withFrame none f = none := rfl

lemma withFrame_error {α β : Type} (e : DecodeError) (f : α → Option (Except DecodeError β)) :
    withFrame (some (.error e)) f = some (.error e) := rfl

lemma withFrame_ok {α β : Type} (a : α) (f : α → Option (Except DecodeError β)) :
    withFrame (some (.ok a)) f = f a := rfl

/-- The pair-assembly loop of StatusNotify::decode: for each of the k
remaining output bytes starting at pair index i, read tail[i*2] and
tail[i*2 + 1] (with the bounds-check abort modelled by withByte), pass
each through char2bin with its error short-circuiting the loop, and
assemble the byte as in `*out |= hi << 4; *out |= lo`. -/
def decodeCount (tail : List Nat) : Nat → Nat → Option (Except DecodeError (List Nat))
  | _, 0 => some (.ok [])
  | i, k + 1 =>
    withByte tail[i * 2]? fun hiC =>
    withHex (char2bin hiC) fun hi =>
    withByte tail[i * 2 + 1]? fun loC =>
    withHex (char2bin loC) fun lo =>
    withFrame (decodeCount tail (i + 1) k) fun rest =>
    some (.ok (((hi <<< 4) ||| lo) :: rest))

/-- Embeds StatusNotify::decode from status_notify.rs.  The length guard
compares against the length of the model string
":7881150175810000380026C9000C04220000FFFFFFFFFFA7", which is 49 bytes
(1 sentinel + 48 hex digits).  58 is the ASCII code of the sentinel `:`.
The outer Option models a possible runtime abort; decode_isSome below
proves it never happens. -/
def StatusNotify.decode (input : List Nat) : Option (Except DecodeError StatusNotify) :=
  if input.length ≠ 49 then some (.error (.InvalidLength input.length))
  else
    withByte input[0]? fun c0 =>
      if c0 ≠ 58 then some (.error (.InvalidCharacter c0))
      else
        withFrame (decodeCount (input.drop 1) 0 24) fun bytes =>
        some (.ok ⟨bytes⟩)

/-- Models Rust str::as_bytes for the ASCII strings this program handles. -/
def strBytes (s : String) : List Nat := s.toList.map Char.toNat

/-- Embeds StatusNotify::decode_str from status_notify.rs. -/
def StatusNotify.decode_str (s : String) : Option (Except DecodeError StatusNotify) :=
  StatusNotify.decode (strBytes s)

/-- Field accessors, embedded from status_notify.rs (fixed offsets into
buf).  List.getD is exact for the length-24 buffers decode produces. -/
def StatusNotify.source_device_id (s : StatusNotify) : Nat := s.buf.getD 0 0

def StatusNotify.command (s : StatusNotify) : Nat := s.buf.getD 1 0

def StatusNotify.packet_id (s : StatusNotify) : Nat := s.buf.getD 2 0

def StatusNotify.protocol_version (s : StatusNotify) : Nat := s.buf.getD 3 0

def StatusNotify.lqi (s : StatusNotify) : Nat := s.buf.getD 4 0

/-- u32::from_be_bytes([buf[5], buf[6], buf[7], buf[8]]). -/
def StatusNotify.hardware_id (s : StatusNotify) : Nat :=
  s.buf.getD 5 0 * 16777216 + s.buf.getD 6 0 * 65536 + s.buf.getD 7 0 * 256 + s.buf.getD 8 0

def StatusNotify.dest_device_id (s : StatusNotify) : Nat := s.buf.getD 9 0

/-- u16::from_be_bytes([buf[10], buf[11]]). -/
def StatusNotify.timestamp (s : StatusNotify) : Nat :=
  s.buf.getD 10 0 * 256 + s.buf.getD 11 0

def StatusNotify.relay_count (s : StatusNotify) : Nat := s.buf.getD 12 0

/-- u16::from_be_bytes([buf[13], buf[14]]). -/
def StatusNotify.power_voltage_millis (s : StatusNotify) : Nat :=
  s.buf.getD 13 0 * 256 + s.buf.getD 14 0

def StatusNotify.di_status (s : StatusNotify) : Nat := s.buf.getD 16 0

def StatusNotify.di_changed (s : StatusNotify) : Nat := s.buf.getD 17 0

def StatusNotify.ad4_value (s : StatusNotify) : Nat := s.buf.getD 18 0

def StatusNotify.ad3_value (s : StatusNotify) : Nat := s.buf.getD 19 0

def StatusNotify.ad2_value (s : StatusNotify) : Nat := s.buf.getD 20 0

def StatusNotify.ad1_value (s : StatusNotify) : Nat := s.buf.getD 21 0

def StatusNotify.ad_fix (s : StatusNotify) : Nat := s.buf.getD 22 0

def StatusNotify.checksum (s : StatusNotify) : Nat := s.buf.getD 23 0

/-- di1_status: (di_status & (1 << 0)) != 0. -/
def StatusNotify.di1_status (s : StatusNotify) : Bool :=
  (s.di_status &&& (1 <<< 0)) != 0

/-- di1_changed: (di_changed & (1 << 0)) != 0. -/
def StatusNotify.di1_changed (s : StatusNotify) : Bool :=
  (s.di_changed &&& (1 <<< 0)) != 0

/-- ad_value(): [ad1, ad2, ad3, ad4]. -/
def StatusNotify.ad_value (s : StatusNotify) : List Nat :=
  [s.ad1_value, s.ad2_value, s.ad3_value, s.ad4_value]

def StatusNotify.ad1_fix (s : StatusNotify) : Nat := (s.ad_fix >>> (2 * 0)) &&& 3

def StatusNotify.ad2_fix (s : StatusNotify) : Nat := (s.ad_fix >>> (2 * 1)) &&& 3

def StatusNotify.ad3_fix (s : StatusNotify) : Nat := (s.ad_fix >>> (2 * 2)) &&& 3

def StatusNotify.ad4_fix (s : StatusNotify) : Nat := (s.ad_fix >>> (2 * 3)) &&& 3

/-- ad1_voltage_millis: `(value * 4 + fix) * 4` in u16 arithmetic, with
each operation reduced mod 2^16. -/
def StatusNotify.ad1_voltage_millis (s : StatusNotify) : Nat :=
  ((s.ad1_value * 4) % 65536 + s.ad1_fix % 65536) % 65536 * 4 % 65536

def StatusNotify.ad2_voltage_millis (s : StatusNotify) : Nat :=
  ((s.ad2_value * 4) % 65536 + s.ad2_fix % 65536) % 65536 * 4 % 65536

def StatusNotify.ad3_voltage_millis (s : StatusNotify) : Nat :=
  ((s.ad3_value * 4) % 65536 + s.ad3_fix % 65536) % 65536 * 4 % 65536

def StatusNotify.ad4_voltage_millis (s : StatusNotify) : Nat :=
  ((s.ad4_value * 4) % 65536 + s.ad4_fix % 65536) % 65536 * 4 % 65536

/-- validate_checksum: fold of wrapping_add (mod 256) over buf, succeed
iff the total is 0, otherwise carry the total. -/
def StatusNotify.validate_checksum (s : StatusNotify) : Except Nat Unit :=
  if s.buf.foldl (fun a v => (a + v) % 256) 0 = 0 then .ok ()
  else .error (s.buf.foldl (fun a v => (a + v) % 256) 0)

/-- validate_protocol_version: protocol_version == 0x01. -/
def StatusNotify.validate_protocol_version (s : StatusNotify) : Except Nat Unit :=
  if s.protocol_version = 1 then .ok () else .error s.protocol_version

/-- validate_command: command == 0x81. -/
def StatusNotify.validate_command (s : StatusNotify) : Except Nat Unit :=
  if s.command = 0x81 then .ok () else .error s.command

/-- validate_relay_count: relay_count <= 3. -/
def StatusNotify.validate_relay_count (s : StatusNotify) : Except Nat Unit :=
  if s.relay_count ≤ 3 then .ok () else .error s.relay_count

/-- Embeds StatusNotify::validate: the four checks chained with `?`,
each failure wrapped in its ValidateError constructor. -/
def StatusNotify.validate (s : StatusNotify) : Except ValidateError Unit :=
  match s.validate_checksum with
  | .error c => .error (.InvalidChecksum c)
  | .ok _ =>
    match s.validate_protocol_version with
    | .error v => .error (.InvalidProtocolVersion v)
    | .ok _ =>
      match s.validate_command with
      | .error c => .error (.InvalidCommand c)
      | .ok _ =>
        match s.validate_relay_count with
        | .error r => .error (.InvalidRelayCount r)
        | .ok _ => .ok ()

/-- The documentation/test example line of status_notify.rs. -/
def validLine : String := ":7881150175810000380026C9000C04220000FFFFFFFFFFA7"

/-- The byte sequence of validLine (49 ASCII codes). -/
def validInput : List Nat := strBytes validLine

/-- The 24 bytes that decoding validLine yields. -/
def expectedBytes : List Nat :=
  [0x78, 0x81, 0x15, 0x01, 0x75, 0x81, 0x00, 0x00, 0x38, 0x00, 0x26, 0xC9,
   0x00, 0x0C, 0x04, 0x22, 0x00, 0x00, 0xFF, 0xFF, 0xFF, 0xFF, 0xFF, 0xA7]

deriving instance DecidableEq for Except

/-- Reference hex-digit value transcribed from claim C1: a byte in
'0'..'9' or 'A'..'F' maps to its hexadecimal value, any other byte
(lowercase included) is InvalidCharacter. -/
def hexval (c : Nat) : Except DecodeError Nat :=
  if 48 ≤ c ∧ c ≤ 57 then .ok (c - 48)
  else if 65 ≤ c ∧ c ≤ 70 then .ok (c - 65 + 10)
  else .error (.InvalidCharacter c)

/-- Short-circuiting sequencing of fallible decode steps, used by the
reference decoder of claim C1. -/
def exBind {α β : Type} (x : Except DecodeError α) (f : α → Except DecodeError β) :
    Except DecodeError β :=
  match x with
  | .error e => .error e
  | .ok a => f a

lemma exBind_error {α β : Type} (e : DecodeError) (f : α → Except DecodeError β) :
    exBind (.error e) f = .error e := rfl

lemma exBind_ok {α β : Type} (a : α) (f : α → Except DecodeError β) :
    exBind (.ok a) f = f a := rfl

/-- Reference scan transcribed from claim C1: byte i of the frame is
16 * hexval (input[1 + 2i]) + hexval (input[2 + 2i]), with the first
bad digit short-circuiting the scan. -/
def refScan (input : List Nat) : Nat → Nat → Except DecodeError (List Nat)
  | _, 0 => .ok []
  | i, k + 1 =>
    exBind (hexval (input.getD (1 + 2 * i) 0)) fun hi =>
    exBind (hexval (input.getD (2 + 2 * i) 0)) fun lo =>
    exBind (refScan input (i + 1) k) fun rest =>
    .ok ((16 * hi + lo) :: rest)

/-- Reference frame decoder transcribed from claim C1 word for word: a
length other than exactly 50 is InvalidLength(actual length); a first
byte other than the sentinel is InvalidCharacter(that byte); otherwise
the 24 hex pairs are scanned big-nibble first. -/
def decodeRef (input : List Nat) : Except DecodeError (List Nat) :=
  if input.length ≠ 50 then .error (.InvalidLength input.length)
  else if input.getD 0 0 ≠ 58 then .error (.InvalidCharacter (input.getD 0 0))
  else refScan input 0 24

/-- The reference decoder of claim C1 with the length requirement
amended from 50 to 49 (the sentinel plus 48 hex digits). -/
def decodeRef49 (input : List Nat) : Except DecodeError (List Nat) :=
  if input.length ≠ 49 then .error (.InvalidLength input.length)
  else if input.getD 0 0 ≠ 58 then .error (.InvalidCharacter (input.getD 0 0))
  else refScan input 0 24

lemma char2bin_eq_hexval (c : Nat) : char2bin c = hexval c := rfl

lemma char2bin_ok_lt {c v : Nat} (h : char2bin c = .ok v) : v < 16 := by
  unfold char2bin at h
  split at h
  · injection h with h2; omega
  · split at h
    · injection h with h2; omega
    · exact absurd h (by simp)

lemma lor_shift_eq : ∀ hi < 16, ∀ lo < 16, (hi <<< 4) ||| lo = 16 * hi + lo := by
  decide

/-- A list element fetched below the length is the getD value. -/
lemma getElem?_eq_some_getD : ∀ (l : List Nat) (n : Nat), n < l.length →
    l[n]? = some (l.getD n 0)
  | [], n, h => by simp at h
  | a :: t, 0, _ => by simp
  | a :: t, n + 1, h => by
    simpa using getElem?_eq_some_getD t n (by simpa using h)

/-- Within bounds, the pair-assembly loop of decode agrees with the
reference scan of claim C1 shifted past the sentinel. -/
lemma decodeCount_eq_refScan : ∀ (k i : Nat) (c : Nat) (t : List Nat),
    t.length = 48 → 2 * i + 2 * k ≤ 48 →
    decodeCount t i k = some (refScan (c :: t) i k)
  | 0, i, c, t, _, _ => rfl
  | k + 1, i, c, t, hlen, hb => by
    have e1 : t[i * 2]? = some (t.getD (i * 2) 0) :=
      getElem?_eq_some_getD t (i * 2) (by omega)
    have e2 : t[i * 2 + 1]? = some (t.getD (i * 2 + 1) 0) :=
      getElem?_eq_some_getD t (i * 2 + 1) (by omega)
    have g1 : (c :: t).getD (1 + 2 * i) 0 = t.getD (i * 2) 0 := by
      have h1i : 1 + 2 * i = (i * 2) + 1 := by omega
      rw [h1i]; rfl
    have g2 : (c :: t).getD (2 + 2 * i) 0 = t.getD (i * 2 + 1) 0 := by
      have h2i : 2 + 2 * i = (i * 2 + 1) + 1 := by omega
      rw [h2i]; rfl
    have ih := decodeCount_eq_refScan k (i + 1) c t hlen (by omega)
    rw [decodeCount, refScan, e1, withByte_some, g1, g2, ← char2bin_eq_hexval,
      ← char2bin_eq_hexval]
    cases hhi : char2bin (t.getD (i * 2) 0) with
    | error e => rw [withHex_error, exBind_error]
    | ok hi =>
      rw [withHex_ok, exBind_ok, e2, withByte_some]
      cases hlo : char2bin (t.getD (i * 2 + 1) 0) with
      | error e => rw [withHex_error, exBind_error]
      | ok lo =>
        rw [withHex_ok, exBind_ok, ih]
        cases hr : refScan (c :: t) (i + 1) k with
        | error e => rw [withFrame_error, exBind_error]
        | ok rest =>
          have bhi : hi < 16 := char2bin_ok_lt hhi
          have blo : lo < 16 := char2bin_ok_lt hlo
          rw [withFrame_ok, exBind_ok, lor_shift_eq hi bhi lo blo]

/-- Under the in-bounds side conditions the pair-assembly loop never
aborts. -/
lemma decodeCount_isSome : ∀ (k i : Nat) (t : List Nat),
    2 * i + 2 * k ≤ t.length → (decodeCount t i k).isSome = true
  | 0, _, _, _ => rfl
  | k + 1, i, t, hb => by
    have e1 : t[i * 2]? = some (t.getD (i * 2) 0) :=
      getElem?_eq_some_getD t (i * 2) (by omega)
    have e2 : t[i * 2 + 1]? = some (t.getD (i * 2 + 1) 0) :=
      getElem?_eq_some_getD t (i * 2 + 1) (by omega)
    rw [decodeCount, e1, withByte_some]
    cases hhi : char2bin (t.getD (i * 2) 0) with
    | error e => rw [withHex_error]; rfl
    | ok hi =>
      rw [withHex_ok, e2, withByte_some]
      cases hlo : char2bin (t.getD (i * 2 + 1) 0) with
      | error e => rw [withHex_error]; rfl
      | ok lo =>
        rw [withHex_ok]
        have ih := decodeCount_isSome k (i + 1) t (by omega)
        cases hr : decodeCount t (i + 1) k with
        | none => rw [hr] at ih; exact absurd ih (by simp)
        | some r => cases r with
          | error e => rw [withFrame_error]; rfl
          | ok rest => rw [withFrame_ok]; rfl

/-- decode never aborts: every input produces a frame or a DecodeError. -/
lemma decode_isSome (input : List Nat) : (StatusNotify.decode input).isSome = true := by
  by_cases hlen : input.length = 49
  · cases input with
    | nil => simp at hlen
    | cons c t =>
      have ht : t.length = 48 := by simpa using hlen
      have h24 := decodeCount_isSome 24 0 t (by omega)
      have hdrop : (c :: t).drop 1 = t := rfl
      have h0 : (c :: t)[0]? = some c := by simp
      rw [StatusNotify.decode, if_neg (by omega), h0, withByte_some, hdrop]
      by_cases hc : c = 58
      · rw [if_neg (by omega)]
        cases hr : decodeCount t 0 24 with
        | none => rw [hr] at h24; simp at h24
        | some r =>
          cases r with
          | error e => rw [withFrame_error]; rfl
          | ok bytes => rw [withFrame_ok]; rfl
      · rw [if_pos hc]; rfl
  · rw [StatusNotify.decode, if_pos hlen]; rfl

/-- Claim C1, counterexample: on the 49-byte documentation line the code
decoder succeeds while the claim's reference decoder (which demands
length exactly 50) reports InvalidLength 49, so the two functions are
not equal on every input. -/
theorem claim_C1_counterexample :
    StatusNotify.decode validInput = some (.ok ⟨expectedBytes⟩) ∧
    decodeRef validInput = .error (.InvalidLength 49) := by
  constructor
  · decide
  · decide

/-- Claim C1, amended (the required length is 49, one sentinel plus 48
hex digits, not 50): the frame decoder equals the reference definition
on every input byte sequence — wrong length gives InvalidLength(actual),
a non-':' first byte gives InvalidCharacter, the 48 remaining bytes are
scanned as 24 big-nibble-first uppercase hex pairs with short-circuit on
the first bad digit, and on success byte i is
16 * hexval(input[1+2i]) + hexval(input[2+2i]). -/
theorem claim_C1_amended (input : List Nat) :
    StatusNotify.decode input = some (Except.map StatusNotify.mk (decodeRef49 input)) := by
  by_cases hlen : input.length = 49
  · cases input with
    | nil => simp at hlen
    | cons c t =>
      have ht : t.length = 48 := by simpa using hlen
      have hdrop : (c :: t).drop 1 = t := rfl
      have h0 : (c :: t)[0]? = some c := by simp
      have hg : (c :: t).getD 0 0 = c := rfl
      rw [StatusNotify.decode, decodeRef49, if_neg (by omega), if_neg (by omega), h0,
        withByte_some, hdrop, hg]
      by_cases hc : c = 58
      · rw [if_neg (by omega), if_neg (by omega),
          decodeCount_eq_refScan 24 0 c t ht (by omega)]
        cases hr : refScan (c :: t) 0 24 with
        | error e => rw [withFrame_error]; rfl
        | ok bytes => rw [withFrame_ok]; rfl
      · rw [if_pos hc, if_pos hc]; rfl
  · rw [StatusNotify.decode, decodeRef49, if_pos hlen, if_pos hlen]; rfl

/-- Claim C10, counterexample: the decoder's length check accepts
exactly 49 bytes, not 50 — an input of length 50 fails the length check
with InvalidLength 50, while the accepted documentation line is 49 bytes
long (so its tail past the sentinel has 48 bytes, not 49). -/
theorem claim_C10_counterexample :
    StatusNotify.decode (List.replicate 50 58) = some (.error (.InvalidLength 50)) ∧
    StatusNotify.decode validInput = some (.ok ⟨expectedBytes⟩) ∧
    validInput.length = 49 := by
  refine ⟨by decide, by decide, by decide⟩

/-- Claim C10, amended (the length check is length = 49 and the tail
past the sentinel has 48 bytes, indices 0..47 of which are in bounds):
the decoder is total — for every input byte sequence decode returns a
frame or a DecodeError and never aborts on an out-of-range index. -/
theorem claim_C10_amended (input : List Nat) :
    (StatusNotify.decode input).isSome = true :=
  decode_isSome input

/-- Claim C5: decoding the literal documentation line succeeds and every
accessor returns the specified value, and validate() accepts the frame. -/
theorem claim_C5 :
    ∃ s : StatusNotify, StatusNotify.decode_str validLine = some (.ok s) ∧
      s.source_device_id = 0x78 ∧ s.command = 0x81 ∧ s.packet_id = 0x15 ∧
      s.protocol_version = 0x01 ∧ s.lqi = 0x75 ∧ s.hardware_id = 0x81000038 ∧
      s.dest_device_id = 0x00 ∧ s.timestamp = 0x26C9 ∧ s.relay_count = 0x00 ∧
      s.power_voltage_millis = 3076 ∧ s.di_status = 0x00 ∧ s.di_changed = 0x00 ∧
      s.ad_value = [0xFF, 0xFF, 0xFF, 0xFF] ∧ s.ad_fix = 0xFF ∧ s.checksum = 0xA7 ∧
      s.validate = .ok () :=
  ⟨⟨expectedBytes⟩, by decide⟩

/-- The wrapping fold of validate_checksum equals the plain sum mod 256. -/
lemma foldl_wrap_sum : ∀ (l : List Nat) (a : Nat),
    l.foldl (fun x v => (x + v) % 256) (a % 256) = (a + l.sum) % 256
  | [], a => by simp
  | v :: tl, a => by
    have h := foldl_wrap_sum tl (a + v)
    simp only [List.foldl_cons, List.sum_cons]
    rw [Nat.mod_add_mod, h]
    omega

lemma checksum_fold_eq (l : List Nat) : l.foldl (fun a v => (a + v) % 256) 0 = l.sum % 256 := by
  have h := foldl_wrap_sum l 0
  simpa using h

/-- Claim C3: validate_checksum succeeds iff the 8-bit wraparound sum of
all 24 bytes (checksum byte included) is 0, and on failure the error
carries exactly the nonzero wrapped total. -/
theorem claim_C3 (s : StatusNotify) (h : s.buf.length = 24) :
    (s.validate_checksum = .ok () ↔ s.buf.sum % 256 = 0) ∧
    (∀ e, s.validate_checksum = .error e → e = s.buf.sum % 256 ∧ e ≠ 0) := by
  have hc : s.validate_checksum =
      if s.buf.sum % 256 = 0 then Except.ok () else Except.error (s.buf.sum % 256) := by
    unfold StatusNotify.validate_checksum
    rw [checksum_fold_eq]
  rw [hc]
  constructor
  · split
    · rename_i h0; exact ⟨fun _ => h0, fun _ => rfl⟩
    · rename_i h0
      constructor
      · intro hh; exact absurd hh (by simp)
      · intro hh; exact absurd hh h0
  · intro e he
    split at he
    · exact absurd he (by simp)
    · rename_i h0
      injection he with h1
      constructor
      · omega
      · omega

/-- Claim C3 witness: the theorem applied to the decoded documentation
frame, a concrete 24-byte buffer whose wrapped sum is 0. -/
theorem claim_C3_witness :
    (StatusNotify.mk expectedBytes).buf.length = 24 ∧
    ((StatusNotify.mk expectedBytes).validate_checksum = .ok () ↔
      (StatusNotify.mk expectedBytes).buf.sum % 256 = 0) :=
  ⟨by decide, (claim_C3 ⟨expectedBytes⟩ (by decide)).1⟩

/-- Reference validator transcribed from claim C2: four checks in the
fixed order checksum, protocol version, command, relay count, first
failure wins and carries the specified payload. -/
def validateRef (s : StatusNotify) : Except ValidateError Unit :=
  if s.buf.sum % 256 ≠ 0 then .error (.InvalidChecksum (s.buf.sum % 256))
  else if s.buf.getD 3 0 ≠ 1 then .error (.InvalidProtocolVersion (s.buf.getD 3 0))
  else if s.buf.getD 1 0 ≠ 0x81 then .error (.InvalidCommand (s.buf.getD 1 0))
  else if ¬ s.buf.getD 12 0 ≤ 3 then .error (.InvalidRelayCount (s.buf.getD 12 0))
  else .ok ()

/-- Claim C2: validate runs the checks in the fixed order checksum,
protocol version (byte 3 = 0x01), command (byte 1 = 0x81), relay count
(byte 12 <= 3), returns the first failure with its payload, and succeeds
iff all four checks pass. -/
theorem claim_C2 (s : StatusNotify) :
    s.validate = validateRef s ∧
    (s.validate = .ok () ↔
      (s.buf.sum % 256 = 0 ∧ s.buf.getD 3 0 = 1 ∧ s.buf.getD 1 0 = 0x81 ∧
        s.buf.getD 12 0 ≤ 3)) := by
  have hc := checksum_fold_eq s.buf
  unfold StatusNotify.validate validateRef StatusNotify.validate_checksum
    StatusNotify.validate_protocol_version StatusNotify.validate_command
    StatusNotify.validate_relay_count StatusNotify.protocol_version StatusNotify.command
    StatusNotify.relay_count
  rw [hc]
  by_cases h1 : s.buf.sum % 256 = 0 <;> by_cases h2 : s.buf[3]?.getD 0 = 1 <;>
    by_cases h3 : s.buf[1]?.getD 0 = 0x81 <;> by_cases h4 : s.buf[12]?.getD 0 ≤ 3 <;>
    simp [h1, h2, h3, h4]

/-- Display of DecodeError, from the fmt impl in error.rs. -/
def DecodeError.display : DecodeError → String
  | .InvalidLength len => "Unexpected length: " ++ toString len
  | .InvalidCharacter c => "Hit to invalid character " ++ toString c ++ " when decode"

/-- Display of ValidateError, from the fmt impl in error.rs (the
protocol-version arm repeats the command message, as in the source). -/
def ValidateError.display : ValidateError → String
  | .InvalidChecksum c => "Checksum is must be 0, actually " ++ toString c
  | .InvalidCommand c => "Command is always 0x81, but actually " ++ toString c
  | .InvalidProtocolVersion c => "Command is always 0x81, but actually " ++ toString c
  | .InvalidRelayCount c =>
    "Relay count is must be less or equal to 3, but actually " ++ toString c

/-- Backend configuration from cli.rs: optional username, password, url. -/
structure Backend where
  username : Option String
  password : Option String
  url : Option String
deriving DecidableEq

/-- A delivery failure surfaced by WebBackend::send: a transport error
from the HTTP client, or a client/server error status. -/
inductive DeliveryError where
  | network
  | status (code : Nat)
deriving DecidableEq

/-- The single outbound request WebBackend::send builds: target url,
optional basic-auth credentials, multipart form fields in order. -/
structure HttpRequest where
  url : String
  auth : Option (String × Option String)
  fields : List (String × String)
deriving DecidableEq

/-- The outcome of the HTTP round trip performed by the client: a
transport failure, or a final response carrying its status code. -/
inductive HttpOutcome where
  | networkError
  | response (status : Nat)
deriving DecidableEq

/-- The request WebBackend::send (sender.rs) issues: the five multipart
fields wireless, battery, doorsensor, status, changed rendered in
decimal (booleans as true/false), and basic_auth attached exactly when a
username is configured.  The none result models the unwrap abort on a
missing url, which Sender::new makes unreachable. -/
def webRequest (b : Backend) (s : StatusNotify) : Option HttpRequest :=
  match b.url with
  | none => none
  | some u =>
    some
      ⟨u,
       (match b.username with
        | some un => some (un, b.password)
        | none => none),
       [("wireless", toString s.lqi),
        ("battery", toString s.power_voltage_millis),
        ("doorsensor", toString s.di_status),
        ("status", toString s.di1_status),
        ("changed", toString s.di1_changed)]⟩

/-- Models the tail of WebBackend::send: `.send().await?` turns a
transport failure into Err, and `.error_for_status()?` turns a response
whose status is a client error (400..499) or server error (500..599)
into Err, as documented for the reqwest method; any other response
passes through as Ok. -/
def webSendResult (o : HttpOutcome) : Except DeliveryError Unit :=
  match o with
  | .networkError => .error .network
  | .response s => if 400 ≤ s ∧ s ≤ 599 then .error (.status s) else .ok ()

/-- The Sender enum from sender.rs. -/
inductive Sender where
  | Web (b : Backend)
  | Nothing

/-- Sender::new from sender.rs: with no url configured it prints the two
warning lines and selects the Nothing (dry-run) sink, otherwise the Web
sink.  The first component is the printed output. -/
def Sender.new (b : Backend) : List String × Sender :=
  match b.url with
  | none =>
    (["Warning: backend is not specified.", "         entering dry-run mode."], .Nothing)
  | some _ => ([], .Web b)

/-- Sender::send from sender.rs with its outbound I/O made explicit: the
list of requests issued and the delivery result, given the outcome the
HTTP round trip would produce.  none models the unwrap abort inside
WebBackend::send when no url is present. -/
def Sender.send (s : Sender) (fr : StatusNotify) (o : HttpOutcome) :
    Option (List HttpRequest × Except DeliveryError Unit) :=
  match s with
  | .Nothing => some ([], .ok ())
  | .Web b =>
    match webRequest b fr with
    | none => none
    | some req => some ([req], webSendResult o)

/-- The spawned dispatch task of main.rs:
`tokio::spawn(async move { sender.send(&status).await.unwrap() })` — the
unwrap maps a delivery failure to a task abort (none), not to a log. -/
def dispatchTask (r : Except DeliveryError Unit) : Option Unit :=
  match r with
  | .ok _ => some ()
  | .error _ => none

/-- Claim C4, evaluated at the failing input: when delivery fails (here
an HTTP 500 response), the dispatch task of main.rs unwraps the Err and
aborts instead of logging the failure. -/
theorem claim_C4_bug :
    webSendResult (.response 500) = .error (.status 500) ∧
    dispatchTask (webSendResult (.response 500)) = none := by
  refine ⟨by decide, by decide⟩

/-- Claim C6, counterexample: a 304 response is not a 2xx status, yet
WebBackend::send reports success for it, because error_for_status only
rejects 400..599 — so "any non-2xx response yields a delivery failure"
is false. -/
theorem claim_C6_counterexample :
    webSendResult (.response 304) = .ok () ∧ ¬(200 ≤ 304 ∧ 304 ≤ 299) := by
  refine ⟨by decide, by decide⟩

/-- Claim C6, amended (a response fails delivery iff its status is a
4xx/5xx; every 2xx still succeeds): with a url configured, each send
issues exactly one multipart POST whose five fields are wireless =
decimal LQI, battery = decimal millivolts, doorsensor = decimal
digital-input byte, status and changed = the DI1 booleans, with basic
auth attached iff a username is configured; a network failure or a
4xx/5xx status yields a delivery failure result, and every 2xx response
yields success. -/
theorem claim_C6_amended (b : Backend) (fr : StatusNotify) (u : String)
    (hb : b.url = some u) :
    (∀ o : HttpOutcome, ∃ req : HttpRequest,
        Sender.send (.Web b) fr o = some ([req], webSendResult o) ∧
        req.url = u ∧
        req.fields =
          [("wireless", toString fr.lqi),
           ("battery", toString fr.power_voltage_millis),
           ("doorsensor", toString fr.di_status),
           ("status", toString fr.di1_status),
           ("changed", toString fr.di1_changed)] ∧
        req.auth = Option.map (fun un => (un, b.password)) b.username) ∧
    webSendResult .networkError = .error .network ∧
    (∀ c : Nat, webSendResult (.response c) = .ok () ↔ ¬(400 ≤ c ∧ c ≤ 599)) ∧
    (∀ c : Nat, 200 ≤ c → c ≤ 299 → webSendResult (.response c) = .ok ()) := by
  obtain ⟨un, pw, url⟩ := b
  have hb2 : url = some u := hb
  subst hb2
  refine ⟨?_, rfl, ?_, ?_⟩
  · intro o
    refine ⟨_, rfl, rfl, rfl, ?_⟩
    cases un with
    | none => rfl
    | some uname => rfl
  · intro c
    have hw : webSendResult (.response c) =
        if 400 ≤ c ∧ c ≤ 599 then .error (.status c) else .ok () := rfl
    rw [hw]
    split
    · rename_i hcs
      exact ⟨fun hh => absurd hh (by simp), fun hh => absurd hcs hh⟩
    · rename_i hcs
      exact ⟨fun _ => hcs, fun _ => rfl⟩
  · intro c h2a h2b
    have hw : webSendResult (.response c) =
        if 400 ≤ c ∧ c ≤ 599 then .error (.status c) else .ok () := rfl
    rw [hw, if_neg (by omega)]

/-- Claim C6 witness: the amended theorem applied to a concrete backend,
frame and a 200 response. -/
theorem claim_C6_witness :
    webSendResult (.response 200) = .ok () :=
  (claim_C6_amended ⟨some "user", none, some "http://backend"⟩ ⟨expectedBytes⟩
    "http://backend" rfl).2.2.2 200 (by omega) (by omega)

/-- Claim C7: when no destination url is configured, Sender::new prints
the two dry-run warning lines and selects the Nothing sink, whose send
always succeeds immediately with no outbound request. -/
theorem claim_C7 (b : Backend) (hb : b.url = none) :
    (Sender.new b).1 =
      ["Warning: backend is not specified.", "         entering dry-run mode."] ∧
    (Sender.new b).2 = .Nothing ∧
    (∀ (fr : StatusNotify) (o : HttpOutcome),
      Sender.send .Nothing fr o = some ([], .ok ())) := by
  obtain ⟨un, pw, url⟩ := b
  cases url with
  | none => exact ⟨rfl, rfl, fun _ _ => rfl⟩
  | some u => exact absurd hb (by simp)

/-- Claim C7 witness: the theorem applied to the empty backend
configuration and a concrete frame. -/
theorem claim_C7_witness :
    (Sender.new ⟨none, none, none⟩).2 = .Nothing ∧
    Sender.send .Nothing ⟨expectedBytes⟩ .networkError = some ([], .ok ()) :=
  ⟨(claim_C7 ⟨none, none, none⟩ rfl).2.1,
   (claim_C7 ⟨none, none, none⟩ rfl).2.2 ⟨expectedBytes⟩ .networkError⟩

/-- Every getD lookup in a byte list is a byte (or the default 0). -/
lemma getD_lt_256 {l : List Nat} (h : ∀ b ∈ l, b < 256) (n : Nat) : l.getD n 0 < 256 := by
  rw [List.getD_eq_getElem?_getD]
  cases hn : l[n]? with
  | none => simp
  | some v =>
    have hv : v ∈ l := List.getElem?_mem hn
    simpa using h v hv

set_option maxRecDepth 4096 in
/-- For bytes, the shift-and-mask extractions of the correction bits
coincide with the bit-range arithmetic of the specification. -/
lemma fix_bits_eq : ∀ x < 256,
    (x >>> 0) &&& 3 = x / 1 % 4 ∧ (x >>> 2) &&& 3 = x / 4 % 4 ∧
    (x >>> 4) &&& 3 = x / 16 % 4 ∧ (x >>> 6) &&& 3 = x / 64 % 4 := by
  decide

/-- Claim C8: for every frame of bytes, each analog channel voltage in
millivolts equals (rawValue * 4 + correctionBits) * 4 computed exactly
(the u16 reductions are the identity), where the raw values sit at
offsets 21, 20, 19, 18 for channels 1..4 and the correction bits of
channel k are bits 2(k-1) and 2(k-1)+1 of the byte at offset 22
(divisors 1, 4, 16, 64 are 2^0, 2^2, 2^4, 2^6). -/
theorem claim_C8 (s : StatusNotify) (h : ∀ b ∈ s.buf, b < 256) :
    s.ad1_voltage_millis = (s.buf.getD 21 0 * 4 + s.buf.getD 22 0 / 1 % 4) * 4 ∧
    s.ad2_voltage_millis = (s.buf.getD 20 0 * 4 + s.buf.getD 22 0 / 4 % 4) * 4 ∧
    s.ad3_voltage_millis = (s.buf.getD 19 0 * 4 + s.buf.getD 22 0 / 16 % 4) * 4 ∧
    s.ad4_voltage_millis = (s.buf.getD 18 0 * 4 + s.buf.getD 22 0 / 64 % 4) * 4 := by
  have h22 := getD_lt_256 h 22
  have h21 := getD_lt_256 h 21
  have h20 := getD_lt_256 h 20
  have h19 := getD_lt_256 h 19
  have h18 := getD_lt_256 h 18
  have hbits := fix_bits_eq (s.buf.getD 22 0) h22
  unfold StatusNotify.ad1_voltage_millis StatusNotify.ad2_voltage_millis
    StatusNotify.ad3_voltage_millis StatusNotify.ad4_voltage_millis
    StatusNotify.ad1_fix StatusNotify.ad2_fix StatusNotify.ad3_fix StatusNotify.ad4_fix
    StatusNotify.ad1_value StatusNotify.ad2_value StatusNotify.ad3_value
    StatusNotify.ad4_value StatusNotify.ad_fix
  simp only [show (2 * 0 : Nat) = 0 from rfl, show (2 * 1 : Nat) = 2 from rfl,
    show (2 * 2 : Nat) = 4 from rfl, show (2 * 3 : Nat) = 6 from rfl]
  rw [hbits.1, hbits.2.1, hbits.2.2.1, hbits.2.2.2]
  refine ⟨by omega, by omega, by omega, by omega⟩

/-- Claim C8 witness: on the decoded documentation frame (raw value 0xFF
and correction bits 0b11 on channel 1) the voltage is 4092 mV. -/
theorem claim_C8_witness :
    (∀ b ∈ (StatusNotify.mk expectedBytes).buf, b < 256) ∧
    (StatusNotify.mk expectedBytes).ad1_voltage_millis = 4092 :=
  ⟨by decide, ((claim_C8 ⟨expectedBytes⟩ (by decide)).1).trans (by decide)⟩

/-- What one pass of the ingestion loop body of main.rs produces: the
lines logged to stderr, the frames printed to stdout (the exact
floating-point summary formatting is outside the model), and the frame
handed to the spawned delivery task. -/
structure StepOut where
  logs : List String
  printed : List StatusNotify
  dispatched : Option StatusNotify
deriving DecidableEq

/-- The outcome of one BufRead::lines read: an I/O error or a line. -/
inductive LineResult where
  | ioError
  | line (bytes : List Nat)

/-- Renders the raw bytes back to text for the "Buffer: {line}" log. -/
def bytesLine (bytes : List Nat) : String := String.mk (bytes.map Char.ofNat)

/-- The decode/validate/dispatch part of the loop body, for one line. -/
def lineBody (bytes : List Nat) : Option StepOut :=
  match StatusNotify.decode bytes with
  | none => none
  | some (.error e) => some ⟨[e.display, "Buffer: " ++ bytesLine bytes], [], none⟩
  | some (.ok s) =>
    match s.validate with
    | .error v => some ⟨[v.display], [], none⟩
    | .ok _ => some ⟨[], [s], some s⟩

/-- One iteration of the ingestion loop of main.rs: a failed line read
is skipped with `let Ok(line) = line else { continue }` — producing no
log line — and a successful read goes through decode and validate, with
their errors logged, and a summary print plus dispatch on acceptance.
A none result models an abort inside the body. -/
def loopStep : LineResult → Option StepOut
  | .ioError => some ⟨[], [], none⟩
  | .line bytes => lineBody bytes

/-- The ingestion loop over a whole stream of line reads: every element
is processed in order; an abort in any body aborts the loop. -/
def runLoop : List LineResult → Option (List StepOut)
  | [] => some []
  | r :: rest =>
    match loopStep r with
    | none => none
    | some o => Option.map (fun l => o :: l) (runLoop rest)

lemma lineBody_isSome (bytes : List Nat) : (lineBody bytes).isSome = true := by
  unfold lineBody
  split
  · rename_i hd
    have h := decode_isSome bytes
    rw [hd] at h
    simp at h
  · rfl
  · split
    · rfl
    · rfl

/-- Claim C9, counterexample: on a line-read failure the loop body of
main.rs produces no log line at all (and continues), so "logs the
failure" is false — the read error is silently discarded. -/
theorem claim_C9_counterexample : loopStep .ioError = some ⟨[], [], none⟩ := rfl

/-- Claim C9, amended (the loop continues awaiting the next line on
every read failure but does so silently, without logging): no single
read outcome aborts the loop body, and a failed read contributes an
empty step — no log, no print, no dispatch — with the rest of the
stream processed unchanged. -/
theorem claim_C9_amended :
    (∀ r : LineResult, (loopStep r).isSome = true) ∧
    (∀ rest : List LineResult,
      runLoop (.ioError :: rest) = Option.map (fun l => ⟨[], [], none⟩ :: l) (runLoop rest)) := by
  constructor
  · intro r
    cases r with
    | ioError => rfl
    | line bytes => exact lineBody_isSome bytes
  · intro rest
    rfl
